import Mathlib

/-!
Verification of the dissolution weatherer
(`src/py_gnome/gnome/weatherers/dissolution.py`).

The embedding below translates the `Dissolution` class into Lean.
Numeric arrays are lists of rationals; an IEEE float that may be
non-finite (NaN or an infinity) is modelled as `Option ℚ`, with `none`
standing for a non-finite value.  The only array field that can receive
a non-finite value in this module is `partition_coeff` (written from a
quotient whose denominator can vanish), so it alone is stored as
`List (Option ℚ)`.

The modules `gnome.utilities.weathering` (LeeHuibers, Stokes,
DingFarmer, DelvigneSweeney), the `Waves` environment object and the
`Weatherer` base class are not part of the sources; they are modelled
from the spec as abstract parameters (`PhysModels`, `Waves`) and a
spec-modelled `isActive` flag.

The per-element physical quantities that `dissolve_oil` computes and
then merely prints (average density, transfer velocity, beta, dX_dt,
water-column fraction, per-element mass dissipated) never reach the
returned value or any stored array: the function returns
`np.zeros(len(data['mass']))`.  The embedding keeps the observable
effects (the returned `diss` array, the `partition_coeff` writes, and
the number of environment queries made) and defines the print-only
quantities separately where a claim refers to them.
-/

namespace PyGnomeDissolution

/-- Modelled from the spec: the physical property models from
`gnome.utilities.weathering` (not under the provided sources).  Each is
a pure function: LeeHuibers partition coefficient (molecular weight,
component density), Stokes phase-transfer velocity (density
differential, droplet size), Delvigne–Sweeney breaking-wave fraction
(wind speed, wave period), Ding–Farmer water-column time fraction
(breaking-wave fraction, wave period, wave height, transfer velocity). -/
structure PhysModels where
  leeHuibersPartitionCoeff : ℚ → ℚ → ℚ
  stokesWaterPhaseXferVelocity : ℚ → ℚ → ℚ
  delvigneSweeneyBreakingWavesFrac : ℚ → ℚ → ℚ
  dingFarmerWaterColumnTimeFraction : ℚ → ℚ → ℚ → ℚ → ℚ

/-- Modelled from the spec: the `Waves` environment provider (not under
the provided sources): water density, and time-indexed peak wave
period, wave height and wind speed. -/
structure Waves where
  waterDensity : ℚ
  peakWavePeriod : ℚ → ℚ
  waveHeight : ℚ → ℚ
  windSpeed : ℚ → ℚ

/-- One chemical component of a substance: its SARA classification
(`substance._sara['type'] == 'Aromatics'`), molecular weight
(`substance.molecular_weight`) and density
(`substance.component_density`).  The source keeps these as three
parallel arrays; here they are zipped into one record per component. -/
structure SubComponent where
  isAromatic : Bool
  molecularWeight : ℚ
  componentDensity : ℚ

/-- Substance descriptor (immutable during the simulation). -/
structure Substance where
  comps : List SubComponent

/-- The per-substance slice of the element store used by this module:
`mass_components` (one row of component masses per element), `mass`,
`partition_coeff`, `droplet_avg_size` and `spill_num`.  The `density`
and `viscosity` arrays are requested in `array_types` but never read or
written by this module, so they are omitted.  A `partition_coeff` entry
is `Option ℚ`: `none` models a non-finite float. -/
structure ElementData where
  massComponents : List (List ℚ)
  mass : List ℚ
  partitionCoeff : List (Option ℚ)
  dropletAvgSize : List ℚ
  spillNum : List ℕ

/-- The spill container state visible to this module: the number of
elements released, the per-substance data slices, and the
`mass_balance['dissolution']` ledger entry. -/
structure SpillContainer where
  numReleased : ℕ
  substances : List (Substance × ElementData)
  massBalanceDissolution : ℚ

/-- Per-component masked partition value:
`arom_mask * LeeHuibers.partition_coeff(mol_wt, rho)` (line 146) —
non-aromatic components are masked to zero. -/
def kOwComp (ph : PhysModels) (c : SubComponent) : ℚ :=
  if c.isAromatic then ph.leeHuibersPartitionCoeff c.molecularWeight c.componentDensity else 0

/-- Denominator of the per-element overall K_ow: `np.sum(m / mol_wt)`
(line 159). -/
def kOwDenom (sub : Substance) (m : List ℚ) : ℚ :=
  (List.zipWith (fun mi c => mi / c.molecularWeight) m sub.comps).sum

/-- Numerator of the per-element overall K_ow:
`np.sum(m * K_ow_comp / mol_wt)` (line 158). -/
def kOwNumer (ph : PhysModels) (sub : Substance) (m : List ℚ) : ℚ :=
  (List.zipWith (fun mi c => mi * kOwComp ph c / c.molecularWeight) m sub.comps).sum

/-- The overall K_ow of one element (lines 158-159).  When the
denominator vanishes the IEEE quotient is non-finite (0/0 is NaN,
x/0 is an infinity), modelled as `none`. -/
def kOw (ph : PhysModels) (sub : Substance) (m : List ℚ) : Option ℚ :=
  if kOwDenom sub m = 0 then none else some (kOwNumer ph sub m / kOwDenom sub m)

/-- Mass-weighted average oil density of one element:
`(masses / masses.sum() * densities).sum()` (lines 210-213). -/
def oil_avg_density (m : List ℚ) (rho : List ℚ) : ℚ :=
  (List.zipWith (fun mi ri => mi / m.sum * ri) m rho).sum

/-- Total oil volume of one element: `(m / rho).sum()` (line 173). -/
def total_volume (sub : Substance) (m : List ℚ) : ℚ :=
  (List.zipWith (fun mi c => mi / c.componentDensity) m sub.comps).sum

/-- Aromatic volume of one element: `((m / rho) * arom_mask).sum()`
(line 174). -/
def aromatic_volume (sub : Substance) (m : List ℚ) : ℚ :=
  (List.zipWith (fun mi c => mi / c.componentDensity * (if c.isAromatic then 1 else 0))
    m sub.comps).sum

/-- Saturates+resins+asphaltenes (non-aromatic) volume of one element:
`((m / rho) * not_arom_mask).sum()` (line 175). -/
def S_RA_volume (sub : Substance) (m : List ℚ) : ℚ :=
  (List.zipWith (fun mi c => mi / c.componentDensity * (if c.isAromatic then 0 else 1))
    m sub.comps).sum

/-- In-place write of a list of freshly computed values over the prefix
of a stored array: models the loop `data['partition_coeff'][idx] = K_ow`
performed for each `idx` ranging over `zip(fmass, droplet_avg_size)`
(lines 148-162).  Entries of `pc` beyond the computed values keep their
old contents. -/
def writePc (pc ks : List (Option ℚ)) : List (Option ℚ) :=
  match pc, ks with
  | [], _ => []
  | old :: pc, [] => old :: pc
  | _ :: pc, k :: ks => k :: writePc pc ks

/-- Result of `dissolve_oil`: the returned `diss` array, the
`partition_coeff` array after the in-loop writes, and the number of
environment-provider queries performed (the loop body queries water
density, peak wave period, wave height and wind speed once per
element). -/
structure DissolveResult where
  diss : List ℚ
  partitionCoeff : List (Option ℚ)
  envQueries : ℕ

/-- `Dissolution.dissolve_oil` (lines 114-208).  The loop runs over
`zip(fmass, droplet_avg_size)`; for each element it computes and stores
the overall K_ow (line 162) and queries the waves object four times
(lines 165, 220-222); every other quantity it computes is printed and
discarded.  The returned array is `np.zeros(len(data['mass']))`
(lines 207-208). -/
def dissolve_oil (ph : PhysModels) (waves : Waves) (modelTime timeStep : ℚ)
    (sub : Substance) (data : ElementData) : DissolveResult :=
  let rows := data.massComponents.zip data.dropletAvgSize
  { diss := List.replicate data.mass.length 0
    partitionCoeff := writePc data.partitionCoeff (rows.map fun md => kOw ph sub md.1)
    envQueries := 4 * rows.length }

/-- The fractional mass loss applied by `weather_elements`
(lines 261-266): `sum(diss)/sum(mass)` clamped to at most 1 when the
total mass is positive, else 0. -/
def dissMassFrac (dsum msum : ℚ) : ℚ :=
  if 0 < msum then (if 1 < dsum / msum then 1 else dsum / msum) else 0

/-- The per-substance body of the `weather_elements` loop
(lines 247-270): skip a substance with no elements; otherwise call
`dissolve_oil`, accumulate `sum(diss)` into the ledger, scale every
component mass by `(1 - diss_mass_frac)` and recompute `mass` as the
row sums.  Returns the updated data slice, the amount added to the
ledger for this substance, and the number of environment queries. -/
def weatherSubstance (ph : PhysModels) (waves : Waves) (modelTime timeStep : ℚ)
    (sub : Substance) (data : ElementData) : ElementData × ℚ × ℕ :=
  if data.mass.length = 0 then (data, 0, 0)
  else
    let r := dissolve_oil ph waves modelTime timeStep sub data
    let dsum := r.diss.sum
    let frac := dissMassFrac dsum data.mass.sum
    let mc' := data.massComponents.map (List.map (fun c => (1 - frac) * c))
    ({ data with massComponents := mc'
                 mass := mc'.map List.sum
                 partitionCoeff := r.partitionCoeff },
     dsum, r.envQueries)

/-- `Dissolution.weather_elements` (lines 236-277): no effect when the
weatherer is not active or no elements have been released; otherwise
process every substance and fold the per-substance ledger deltas into
`mass_balance['dissolution']`.  The second result component counts the
environment queries performed during the step. -/
def weather_elements (active : Bool) (ph : PhysModels) (waves : Waves)
    (modelTime timeStep : ℚ) (sc : SpillContainer) : SpillContainer × ℕ :=
  if active = false then (sc, 0)
  else if sc.numReleased = 0 then (sc, 0)
  else
    let results := sc.substances.map fun p =>
      (p.1, weatherSubstance ph waves modelTime timeStep p.1 p.2)
    ({ sc with substances := results.map fun q => (q.1, q.2.1)
               massBalanceDissolution :=
                 sc.massBalanceDissolution + (results.map fun q => q.2.2.1).sum },
     (results.map fun q => q.2.2.2).sum)

/-- The sentinel test `data['partition_coeff'] == 0` (line 103).  A
non-finite float compares unequal to zero, so `none` is not a sentinel. -/
def sentinelZero (o : Option ℚ) : Bool := o = some 0

/-- Number of rows holding the sentinel value zero in the
partition-coefficient field. -/
def sentinelZeroCount (pc : List (Option ℚ)) : ℕ := pc.countP sentinelZero

/-- The write loop of `_initialize_k_ow` (lines 107-110): for each
spill number, set the masked entries to 0.  The union of the per-spill
masks is the sentinel mask itself, so the net effect is to write 0 to
every entry already equal to 0. -/
def writeK (pc : List (Option ℚ)) : List (Option ℚ) :=
  pc.map fun o => if sentinelZero o then some 0 else o

/-- `Dissolution._initialize_k_ow` (lines 89-112).  It accumulates
`num_initialized += len(mask)` — the LENGTH of the boolean mask array,
i.e. the total number of rows of the substance, not the number of
sentinel rows — skipping substances with no rows, performs the
(value-preserving) writes, and finally asserts
`num_initialized == num_released`; `none` models the AssertionError. -/
def init_k_ow (sc : SpillContainer) (numReleased : ℕ) : Option SpillContainer :=
  let numInit := (sc.substances.map fun p =>
    if p.2.partitionCoeff.length = 0 then 0 else p.2.partitionCoeff.length).sum
  let sc' := { sc with substances := sc.substances.map fun p =>
    (p.1, { p.2 with partitionCoeff := writeK p.2.partitionCoeff }) }
  if numInit = numReleased then some sc' else none

/-- `Dissolution.initialize_data` (lines 77-87): do nothing when the
weatherer is off, else run `_initialize_k_ow`. -/
def init_data (onFlag : Bool) (sc : SpillContainer) (numReleased : ℕ) : Option SpillContainer :=
  if onFlag = false then some sc else init_k_ow sc numReleased

/-- Modelled from the spec: the `active` property of the `Weatherer`
base class (not under the provided sources): a process is active when
its on/off flag is set and the model time lies inside the optional
active time window. -/
def isActive (onFlag : Bool) (activeStart activeStop modelTime : ℚ) : Bool :=
  onFlag && decide (activeStart ≤ modelTime) && decide (modelTime ≤ activeStop)

/-- Total currently active mass over all substances of the container. -/
def totalActiveMass (sc : SpillContainer) : ℚ :=
  (sc.substances.map fun p => p.2.mass.sum).sum

/-! Helper lemmas about the embedding. -/

lemma dissMassFrac_zero (msum : ℚ) : dissMassFrac 0 msum = 0 := by
  unfold dissMassFrac
  rcases lt_or_ge 0 msum with h | h
  · rw [if_pos h, zero_div, if_neg (by norm_num)]
  · rw [if_neg (not_lt.mpr h)]

lemma dissolve_oil_diss (ph : PhysModels) (waves : Waves) (t dt : ℚ)
    (sub : Substance) (data : ElementData) :
    (dissolve_oil ph waves t dt sub data).diss = List.replicate data.mass.length 0 := rfl

lemma dissolve_oil_dsum (ph : PhysModels) (waves : Waves) (t dt : ℚ)
    (sub : Substance) (data : ElementData) :
    (dissolve_oil ph waves t dt sub data).diss.sum = 0 := by
  rw [dissolve_oil_diss]; simp

lemma weatherSubstance_delta (ph : PhysModels) (waves : Waves) (t dt : ℚ)
    (sub : Substance) (data : ElementData) :
    (weatherSubstance ph waves t dt sub data).2.1 = 0 := by
  unfold weatherSubstance
  split
  · rfl
  · simp [dissolve_oil_dsum]

lemma weatherSubstance_mc (ph : PhysModels) (waves : Waves) (t dt : ℚ)
    (sub : Substance) (data : ElementData) :
    (weatherSubstance ph waves t dt sub data).1.massComponents = data.massComponents := by
  unfold weatherSubstance
  split
  · rfl
  · simp [dissolve_oil_dsum, dissMassFrac_zero]

lemma weatherSubstance_mass_of (ph : PhysModels) (waves : Waves) (t dt : ℚ)
    (sub : Substance) (data : ElementData)
    (h : data.mass = data.massComponents.map List.sum) :
    (weatherSubstance ph waves t dt sub data).1.mass = data.mass := by
  unfold weatherSubstance
  split
  · rfl
  · simp [dissolve_oil_dsum, dissMassFrac_zero, h]

lemma weatherSubstance_rowsum (ph : PhysModels) (waves : Waves) (t dt : ℚ)
    (sub : Substance) (data : ElementData)
    (h : data.mass = data.massComponents.map List.sum) :
    (weatherSubstance ph waves t dt sub data).1.mass
      = (weatherSubstance ph waves t dt sub data).1.massComponents.map List.sum := by
  rw [weatherSubstance_mass_of ph waves t dt sub data h, weatherSubstance_mc, h]

lemma writeK_eq (pc : List (Option ℚ)) : writeK pc = pc := by
  unfold writeK
  induction pc with
  | nil => rfl
  | cons a l ih =>
      rw [List.map_cons, ih]
      by_cases ha : a = some 0
      · simp [sentinelZero, ha]
      · simp [sentinelZero, ha]

lemma list_sum_div (l : List ℚ) (d : ℚ) : l.sum / d = (l.map (· / d)).sum := by
  induction l with
  | nil => simp
  | cons a l ih => rw [List.map_cons, List.sum_cons, List.sum_cons, add_div, ih]

lemma writePc_getElem (pc ks : List (Option ℚ)) (i : ℕ)
    (h1 : i < pc.length) (h2 : i < ks.length) :
    (writePc pc ks)[i]? = ks[i]? := by
  induction pc generalizing ks i with
  | nil => simp at h1
  | cons a pc ih =>
      cases ks with
      | nil => simp at h2
      | cons k ks =>
          cases i with
          | zero => simp [writePc]
          | succ j =>
              have := ih ks j (Nat.lt_of_succ_lt_succ h1) (Nat.lt_of_succ_lt_succ h2)
              simpa [writePc] using this

lemma weatherSubstance_mass_cases (ph : PhysModels) (waves : Waves) (t dt : ℚ)
    (sub : Substance) (data : ElementData) :
    (weatherSubstance ph waves t dt sub data).1.mass = data.mass ∨
    (weatherSubstance ph waves t dt sub data).1.mass = data.massComponents.map List.sum := by
  unfold weatherSubstance
  split
  · left; rfl
  · right; simp [dissolve_oil_dsum, dissMassFrac_zero]

lemma weatherSubstance_queries_zero (ph : PhysModels) (waves : Waves) (t dt : ℚ)
    (sub : Substance) (data : ElementData) (h : data.mass = []) :
    weatherSubstance ph waves t dt sub data = (data, 0, 0) := by
  unfold weatherSubstance
  rw [if_pos (by rw [h]; rfl)]

lemma sum_map_zero {α : Type} (l : List α) (f : α → ℚ) (h : ∀ a ∈ l, f a = 0) :
    (l.map f).sum = 0 := by
  induction l with
  | nil => rfl
  | cons a l ih =>
      rw [List.map_cons, List.sum_cons, h a (List.mem_cons_self a l),
        ih (fun b hb => h b (List.mem_cons_of_mem a hb)), add_zero]

lemma init_k_ow_writes_nothing (sc : SpillContainer) (n : ℕ) (sc' : SpillContainer)
    (h : init_k_ow sc n = some sc') : sc' = sc := by
  simp only [init_k_ow] at h
  split at h
  · have hmap : sc.substances.map
        (fun p => (p.1, { p.2 with partitionCoeff := writeK p.2.partitionCoeff })) =
        sc.substances := by
      induction sc.substances with
      | nil => rfl
      | cons a l ih => rw [List.map_cons, ih, writeK_eq]
    have h' := (Option.some.inj h).symm
    rw [h', hmap]
  · exact absurd h (by simp)

lemma dissMassFrac_le_one (d m : ℚ) : dissMassFrac d m ≤ 1 := by
  unfold dissMassFrac
  split
  · split
    · exact le_refl 1
    · exact le_of_not_lt (by assumption)
  · norm_num

/-! Concrete inputs used by closed statements: an arbitrary concrete
instantiation of the external physical models and environment, and the
spec's test scenario (one element, two components: one aromatic of mass
50 and molecular weight 178, one non-aromatic of mass 50 and molecular
weight 300; droplet size 5e-5 m, water density 1025, oil density 900,
wind speed 8, wave height 1.2, wave period 6, time step 900). -/

def demoPhys : PhysModels :=
  { leeHuibersPartitionCoeff := fun mw rho => mw / rho
    stokesWaterPhaseXferVelocity := fun dr d => dr * d
    delvigneSweeneyBreakingWavesFrac := fun w p => w * p
    dingFarmerWaterColumnTimeFraction := fun a b c d => a * b * c * d }

def demoWaves : Waves :=
  { waterDensity := 1025
    peakWavePeriod := fun _ => 6
    waveHeight := fun _ => 6 / 5
    windSpeed := fun _ => 8 }

def scenarioSubstance : Substance :=
  ⟨[⟨true, 178, 900⟩, ⟨false, 300, 900⟩]⟩

def scenarioData : ElementData :=
  { massComponents := [[50, 50]]
    mass := [100]
    partitionCoeff := [some 0]
    dropletAvgSize := [1 / 20000]
    spillNum := [0] }

def scenarioSC : SpillContainer :=
  { numReleased := 1
    substances := [(scenarioSubstance, scenarioData)]
    massBalanceDissolution := 0 }

/-- C10: `dissolve_oil` always returns an all-zero array of length equal
to the number of elements (`np.zeros(len(data['mass']))`, lines
207-208), so an active `weather_elements` step adds exactly zero to the
dissolution ledger entry, and the component-mass rows — and, for a
container whose mass field agrees with the row sums, the mass field
itself — are numerically unchanged: each is scaled by `1 - 0`. -/
theorem c10_dissolve_oil_returns_zeros (ph : PhysModels) (waves : Waves) (t dt : ℚ)
    (sub : Substance) (data : ElementData) (sc : SpillContainer)
    (hcons : ∀ p ∈ sc.substances, p.2.mass = p.2.massComponents.map List.sum) :
    (dissolve_oil ph waves t dt sub data).diss = List.replicate data.mass.length 0 ∧
    (weather_elements true ph waves t dt sc).1.massBalanceDissolution
        = sc.massBalanceDissolution ∧
    ((weather_elements true ph waves t dt sc).1.substances.map fun p =>
        (p.2.massComponents, p.2.mass))
      = sc.substances.map fun p => (p.2.massComponents, p.2.mass) := by
  refine ⟨rfl, ?_, ?_⟩ <;> unfold weather_elements <;> rw [if_neg (by simp)] <;>
    by_cases hn : sc.numReleased = 0
  · rw [if_pos hn]
  · rw [if_neg hn]
    have h0 : (sc.substances.map fun p =>
        (weatherSubstance ph waves t dt p.1 p.2).2.1).sum = 0 :=
      sum_map_zero _ _ (fun p _ => weatherSubstance_delta ph waves t dt p.1 p.2)
    simp only [List.map_map, Function.comp_def]
    rw [h0, add_zero]
  · rw [if_pos hn]
  · rw [if_neg hn]
    simp only [List.map_map, Function.comp_def]
    exact List.map_congr_left fun p hp => by
      rw [weatherSubstance_mc, weatherSubstance_mass_of ph waves t dt p.1 p.2 (hcons p hp)]

/-- Witness for C10 at the spec scenario. -/
theorem c10_witness :
    (weather_elements true demoPhys demoWaves 0 900 scenarioSC).1.massBalanceDissolution
      = scenarioSC.massBalanceDissolution :=
  (c10_dissolve_oil_returns_zeros demoPhys demoWaves 0 900 scenarioSubstance scenarioData
    scenarioSC (by intro p hp; simp [scenarioSC] at hp; rw [hp]; norm_num [scenarioData])).2.1

/-- C7: a substance with zero active elements is skipped outright
(lines 248-250): the step performs no environment-provider query for it
and adds nothing to the dissolution ledger on its behalf, leaving its
data slice untouched. -/
theorem c7_zero_element_skip (ph : PhysModels) (waves : Waves) (t dt : ℚ)
    (sub : Substance) (data : ElementData) (h : data.mass = []) :
    weatherSubstance ph waves t dt sub data = (data, 0, 0) :=
  weatherSubstance_queries_zero ph waves t dt sub data h

/-- Witness for C7 on an empty data slice. -/
theorem c7_witness :
    weatherSubstance demoPhys demoWaves 0 900 scenarioSubstance
      { massComponents := [], mass := [], partitionCoeff := [],
        dropletAvgSize := [], spillNum := [] }
      = ({ massComponents := [], mass := [], partitionCoeff := [],
           dropletAvgSize := [], spillNum := [] }, 0, 0) :=
  c7_zero_element_skip demoPhys demoWaves 0 900 scenarioSubstance _ rfl

/-- C6: when the process is not active — off, or outside its active
time window — `weather_elements` returns the container unchanged with
no environment query (lines 241-242), so the ledger entry and every
element array are exactly as in a run without the process; and
`initialize_data` never changes array values: when it is off it returns
immediately (lines 84-85), and even when it runs, its writes put the
sentinel 0 into entries that already hold 0, so any state it returns
equals the input state. -/
theorem c6_inactive_process_is_identity (onFlag : Bool) (s e t dt : ℚ)
    (ph : PhysModels) (waves : Waves) (sc : SpillContainer) (n : ℕ)
    (h : isActive onFlag s e t = false) :
    weather_elements (isActive onFlag s e t) ph waves t dt sc = (sc, 0) ∧
    (onFlag = false → init_data onFlag sc n = some sc) ∧
    (∀ sc', init_data onFlag sc n = some sc' → sc' = sc) := by
  refine ⟨?_, ?_, ?_⟩
  · rw [h]; unfold weather_elements; rw [if_pos rfl]
  · intro hoff; unfold init_data; rw [if_pos hoff]
  · intro sc' h'
    unfold init_data at h'
    split at h'
    · exact (Option.some.inj h').symm
    · exact init_k_ow_writes_nothing sc n sc' h'

/-- Witness for C6 with the flag off. -/
theorem c6_witness :
    weather_elements (isActive false 0 100 50) demoPhys demoWaves 50 900 scenarioSC
      = (scenarioSC, 0) ∧ init_data false scenarioSC 1 = some scenarioSC :=
  ⟨(c6_inactive_process_is_identity false 0 100 50 900 demoPhys demoWaves scenarioSC 1
      rfl).1,
   (c6_inactive_process_is_identity false 0 100 50 900 demoPhys demoWaves scenarioSC 1
      rfl).2.1 rfl⟩

/-- C5: after a `weather_elements` step, every element row's total-mass
field equals the sum of its per-component masses — exactly (line 270
recomputes `mass` as the row sums), hence within the claimed 1e-9
relative tolerance — given that the invariant held before the step
(skipped substances and inactive steps keep their prior state). -/
theorem c5_component_sum_invariant (active : Bool) (ph : PhysModels) (waves : Waves)
    (t dt : ℚ) (sc : SpillContainer)
    (h : ∀ p ∈ sc.substances, p.2.mass = p.2.massComponents.map List.sum) :
    ∀ p ∈ (weather_elements active ph waves t dt sc).1.substances,
      p.2.mass = p.2.massComponents.map List.sum := by
  unfold weather_elements
  by_cases ha : active = false
  · rw [if_pos ha]; exact h
  · rw [if_neg ha]
    by_cases hn : sc.numReleased = 0
    · rw [if_pos hn]; exact h
    · rw [if_neg hn]
      intro p hp
      simp only [List.map_map, Function.comp_def, List.mem_map] at hp
      obtain ⟨q, hq, rfl⟩ := hp
      exact weatherSubstance_rowsum ph waves t dt q.1 q.2 (h q hq)

/-- The data slice of the scenario substance after one step, used by
closed statements. -/
def scenarioStepped : ElementData :=
  (weatherSubstance demoPhys demoWaves 0 900 scenarioSubstance scenarioData).1

/-- Witness for C5 on the stepped scenario element. -/
theorem c5_witness :
    (scenarioSubstance, scenarioStepped).2.mass
      = (scenarioSubstance, scenarioStepped).2.massComponents.map List.sum :=
  c5_component_sum_invariant true demoPhys demoWaves 0 900 scenarioSC
    (by
      intro p hp
      simp only [scenarioSC, List.mem_singleton] at hp
      rw [hp]
      norm_num [scenarioData, List.sum_cons, List.sum_nil])
    (scenarioSubstance, scenarioStepped)
    (by
      rw [show (weather_elements true demoPhys demoWaves 0 900 scenarioSC).1.substances
          = [(scenarioSubstance, scenarioStepped)] from rfl]
      exact List.mem_singleton.mpr rfl)

/-- C2: in every step, the mass removed from a substance equals the
amount that step adds to the dissolution ledger for it (both are zero
here, since `dissolve_oil` returns zeros), so total active mass plus
the ledger entry is preserved exactly — in particular, if it equalled
the total released mass before the step it still does after, well
within the claimed 1e-9 relative tolerance.  Row consistency of the
mass field is assumed, since line 270 recomputes `mass` from the
component rows. -/
theorem c2_mass_conservation (active : Bool) (ph : PhysModels) (waves : Waves) (t dt : ℚ)
    (sc : SpillContainer) (released : ℚ)
    (hcons : ∀ p ∈ sc.substances, p.2.mass = p.2.massComponents.map List.sum)
    (hbal : totalActiveMass sc + sc.massBalanceDissolution = released) :
    (∀ p ∈ sc.substances,
        p.2.mass.sum - (weatherSubstance ph waves t dt p.1 p.2).1.mass.sum
          = (weatherSubstance ph waves t dt p.1 p.2).2.1) ∧
    totalActiveMass (weather_elements active ph waves t dt sc).1
        + (weather_elements active ph waves t dt sc).1.massBalanceDissolution
      = released := by
  constructor
  · intro p hp
    rw [weatherSubstance_mass_of ph waves t dt p.1 p.2 (hcons p hp),
      weatherSubstance_delta, sub_self]
  · unfold weather_elements
    by_cases ha : active = false
    · rw [if_pos ha]; exact hbal
    · rw [if_neg ha]
      by_cases hn : sc.numReleased = 0
      · rw [if_pos hn]; exact hbal
      · rw [if_neg hn]
        have h0 : (sc.substances.map fun p =>
            (weatherSubstance ph waves t dt p.1 p.2).2.1).sum = 0 :=
          sum_map_zero _ _ (fun p _ => weatherSubstance_delta ph waves t dt p.1 p.2)
        have hcongr : sc.substances.map
              (fun p => (weatherSubstance ph waves t dt p.1 p.2).1.mass.sum)
            = sc.substances.map (fun p => p.2.mass.sum) :=
          List.map_congr_left fun p hp => by
            rw [weatherSubstance_mass_of ph waves t dt p.1 p.2 (hcons p hp)]
        simp only [totalActiveMass, List.map_map, Function.comp_def] at hbal ⊢
        rw [h0, add_zero, hcongr]
        exact hbal

/-- Witness for C2 at the spec scenario (total released mass 100). -/
theorem c2_witness :
    totalActiveMass (weather_elements true demoPhys demoWaves 0 900 scenarioSC).1
        + (weather_elements true demoPhys demoWaves 0 900 scenarioSC).1.massBalanceDissolution
      = 100 :=
  (c2_mass_conservation true demoPhys demoWaves 0 900 scenarioSC 100
    (by
      intro p hp
      simp only [scenarioSC, List.mem_singleton] at hp
      rw [hp]
      norm_num [scenarioData, List.sum_cons, List.sum_nil])
    (by norm_num [totalActiveMass, scenarioSC, scenarioData,
      List.sum_cons, List.sum_nil])).2

/-- C8: the fractional mass loss applied by a step is the clamped
quotient `dissMassFrac`: it never exceeds 1 and is zero when the
current total mass is zero (lines 261-266); consequently, if every
component mass and mass entry is non-negative before the step, every
component mass and total mass is still non-negative afterwards. -/
theorem c8_clamp_and_nonneg (active : Bool) (ph : PhysModels) (waves : Waves) (t dt : ℚ)
    (sc : SpillContainer)
    (hcomp : ∀ p ∈ sc.substances, ∀ row ∈ p.2.massComponents, ∀ c ∈ row, 0 ≤ c)
    (hmass : ∀ p ∈ sc.substances, ∀ x ∈ p.2.mass, 0 ≤ x) :
    (∀ dsum msum : ℚ,
        dissMassFrac dsum msum ≤ 1 ∧ (msum = 0 → dissMassFrac dsum msum = 0)) ∧
    (∀ p ∈ (weather_elements active ph waves t dt sc).1.substances,
        (∀ row ∈ p.2.massComponents, ∀ c ∈ row, 0 ≤ c) ∧ (∀ x ∈ p.2.mass, 0 ≤ x)) := by
  constructor
  · intro d m
    refine ⟨dissMassFrac_le_one d m, fun hm => ?_⟩
    unfold dissMassFrac
    rw [if_neg (by rw [hm]; exact lt_irrefl 0)]
  · unfold weather_elements
    by_cases ha : active = false
    · rw [if_pos ha]; intro p hp; exact ⟨hcomp p hp, hmass p hp⟩
    · rw [if_neg ha]
      by_cases hn : sc.numReleased = 0
      · rw [if_pos hn]; intro p hp; exact ⟨hcomp p hp, hmass p hp⟩
      · rw [if_neg hn]
        intro p hp
        simp only [List.map_map, Function.comp_def, List.mem_map] at hp
        obtain ⟨q, hq, rfl⟩ := hp
        dsimp only
        constructor
        · rw [weatherSubstance_mc]
          exact hcomp q hq
        · rcases weatherSubstance_mass_cases ph waves t dt q.1 q.2 with hcase | hcase
          · rw [hcase]; exact hmass q hq
          · rw [hcase]
            intro x hx
            simp only [List.mem_map] at hx
            obtain ⟨row, hrow, rfl⟩ := hx
            exact List.sum_nonneg fun c hc => hcomp q hq row hrow c hc

/-- Witness for C8 at the scenario values. -/
theorem c8_witness :
    dissMassFrac 0 100 ≤ 1 :=
  ((c8_clamp_and_nonneg true demoPhys demoWaves 0 900 scenarioSC
    (by
      intro p hp
      simp only [scenarioSC, List.mem_singleton] at hp
      rw [hp]
      intro row hrow c hc
      simp only [scenarioData, List.mem_singleton] at hrow
      rw [hrow] at hc
      simp only [List.mem_cons, List.not_mem_nil, or_false] at hc
      rcases hc with h50 | h50 <;> norm_num [h50])
    (by
      intro p hp
      simp only [scenarioSC, List.mem_singleton] at hp
      rw [hp]
      intro x hx
      simp only [scenarioData, List.mem_singleton] at hx
      norm_num [hx])).1 0 100).1

lemma kOw_weighted (ph : PhysModels) (D : ℚ) (m : List ℚ) (cs : List SubComponent) :
    (List.zipWith (fun mi c => mi * kOwComp ph c / c.molecularWeight) m cs).sum / D
      = (List.zipWith (fun mi c => mi / c.molecularWeight / D * kOwComp ph c) m cs).sum := by
  induction m generalizing cs with
  | nil => simp
  | cons a m ih =>
      cases cs with
      | nil => simp
      | cons c cs =>
          rw [List.zipWith_cons_cons, List.zipWith_cons_cons, List.sum_cons, List.sum_cons,
            add_div, ih]
          congr 1
          ring

/-- C9: for every element processed by `dissolve_oil`, the stored
overall partition coefficient is the normalized aggregate of the
per-component partition values — each component weighted by its mass
divided by its molecular weight and the whole normalized by the total
of those weights — with non-aromatic components contributing zero
(lines 144-162); the result is written back into that element's
`partition_coeff` entry.  The hypothesis excludes the degenerate
zero-denominator element, for which the source stores a non-finite
quotient. -/
theorem c9_k_ow_aggregation (ph : PhysModels) (waves : Waves) (t dt : ℚ)
    (sub : Substance) (data : ElementData) (i : ℕ) (m : List ℚ) (ds : ℚ)
    (hrow : (data.massComponents.zip data.dropletAvgSize)[i]? = some (m, ds))
    (hlen : i < data.partitionCoeff.length)
    (hden : kOwDenom sub m ≠ 0) :
    (dissolve_oil ph waves t dt sub data).partitionCoeff[i]?
      = some (some ((List.zipWith
          (fun mi c => mi / c.molecularWeight / kOwDenom sub m *
            (if c.isAromatic then
              ph.leeHuibersPartitionCoeff c.molecularWeight c.componentDensity
            else 0)) m sub.comps).sum)) := by
  have hilt : i < (data.massComponents.zip data.dropletAvgSize).length :=
    (List.getElem?_eq_some.mp hrow).1
  have hks : ((data.massComponents.zip data.dropletAvgSize).map
      (fun md => kOw ph sub md.1))[i]? = some (kOw ph sub m) := by
    rw [List.getElem?_map, hrow]; rfl
  simp only [dissolve_oil]
  rw [writePc_getElem _ _ i hlen (by simpa using hilt), hks]
  unfold kOw
  rw [if_neg hden]
  unfold kOwNumer
  rw [kOw_weighted]
  rfl

/-- Witness for C9 at the scenario element. -/
theorem c9_witness :
    (dissolve_oil demoPhys demoWaves 0 900 scenarioSubstance scenarioData).partitionCoeff[0]?
      = some (some ((List.zipWith
          (fun mi c => mi / c.molecularWeight / kOwDenom scenarioSubstance [50, 50] *
            (if c.isAromatic then
              demoPhys.leeHuibersPartitionCoeff c.molecularWeight c.componentDensity
            else 0)) [50, 50] scenarioSubstance.comps).sum)) :=
  c9_k_ow_aggregation demoPhys demoWaves 0 900 scenarioSubstance scenarioData 0 [50, 50]
    (1 / 20000) rfl (by norm_num [scenarioData])
    (by norm_num [kOwDenom, scenarioSubstance])

/-- An element whose component masses are all zero: its non-aromatic
volume is zero, a degenerate case covered by C4. -/
def zeroMassData : ElementData :=
  { massComponents := [[0, 0]]
    mass := [0]
    partitionCoeff := [some 0]
    dropletAvgSize := [1 / 20000]
    spillNum := [0] }

/-- Counterexample to C4 as stated: the all-zero-mass element has zero
non-aromatic volume, yet the step stores a non-finite value (the 0/0
quotient of lines 158-159) into its `partition_coeff` entry, so the
claim that no non-finite value is ever propagated into the element
arrays for such elements is false. -/
theorem c4_counterexample :
    S_RA_volume scenarioSubstance [0, 0] = 0 ∧
    (dissolve_oil demoPhys demoWaves 0 900 scenarioSubstance zeroMassData).partitionCoeff
      = [none] := by
  constructor
  · norm_num [S_RA_volume, scenarioSubstance]
  · norm_num [dissolve_oil, zeroMassData, writePc, kOw, kOwDenom, scenarioSubstance]

/-- C4 amended: every element is excluded from the step's flux
contribution (the returned array is identically zero, so no non-finite
value can reach the ledger), and the value stored into an element's
`partition_coeff` entry is non-finite exactly when the element's
aggregate `sum(m / mol_wt)` is zero (e.g. all component masses zero);
in every other case — including overall K_ow zero or negative, zero
non-aromatic volume with some mass present, or non-positive droplet
size — a finite value is stored. -/
theorem c4_amended_degeneracy_handling (ph : PhysModels) (waves : Waves) (t dt : ℚ)
    (sub : Substance) (data : ElementData) :
    (∀ x ∈ (dissolve_oil ph waves t dt sub data).diss, x = 0) ∧
    (dissolve_oil ph waves t dt sub data).diss.sum = 0 ∧
    (∀ i m ds, (data.massComponents.zip data.dropletAvgSize)[i]? = some (m, ds) →
      i < data.partitionCoeff.length →
      ((dissolve_oil ph waves t dt sub data).partitionCoeff[i]? = some none ↔
        kOwDenom sub m = 0)) := by
  refine ⟨?_, dissolve_oil_dsum ph waves t dt sub data, ?_⟩
  · intro x hx
    rw [dissolve_oil_diss] at hx
    exact List.eq_of_mem_replicate hx
  · intro i m ds hrow hlen
    have hilt : i < (data.massComponents.zip data.dropletAvgSize).length :=
      (List.getElem?_eq_some.mp hrow).1
    have hks : ((data.massComponents.zip data.dropletAvgSize).map
        (fun md => kOw ph sub md.1))[i]? = some (kOw ph sub m) := by
      rw [List.getElem?_map, hrow]; rfl
    simp only [dissolve_oil]
    rw [writePc_getElem _ _ i hlen (by simpa using hilt), hks]
    unfold kOw
    by_cases hd : kOwDenom sub m = 0
    · rw [if_pos hd]; simp [hd]
    · rw [if_neg hd]; simp [hd]

/-- Witness for the amended C4 at the scenario element. -/
theorem c4_witness :
    ((dissolve_oil demoPhys demoWaves 0 900 scenarioSubstance scenarioData).partitionCoeff[0]?
        = some none ↔ kOwDenom scenarioSubstance [50, 50] = 0) :=
  (c4_amended_degeneracy_handling demoPhys demoWaves 0 900 scenarioSubstance
    scenarioData).2.2 0 [50, 50] (1 / 20000) rfl (by norm_num [scenarioData])

/-- C1: the scenario of the spec — one element of total mass 100 split
50/50 between an aromatic component (molecular weight 178) and a
non-aromatic one (molecular weight 300), droplet size 5e-5, water
density 1025, oil density 900, wind 8, wave height 1.2, wave period 6,
time step 900 — is expected by the spec to dissipate a strictly
positive mass below 100 and scale the component masses accordingly.
The code instead returns the all-zero `diss` array (line 207), so the
step adds exactly 0 to the dissolution ledger and leaves the component
masses at 50/50 and the total mass at 100, whatever the external
physical models compute; the internally computed `mass_dissipated` is
printed and discarded.  This theorem records that divergence. -/
theorem c1_scenario_dissolves_nothing (ph : PhysModels) (t : ℚ) :
    (weather_elements true ph demoWaves t 900 scenarioSC).1.massBalanceDissolution = 0 ∧
    ((weather_elements true ph demoWaves t 900 scenarioSC).1.substances.map
        fun p => p.2.massComponents) = [[[50, 50]]] ∧
    ((weather_elements true ph demoWaves t 900 scenarioSC).1.substances.map
        fun p => p.2.mass) = [[100]] := by
  have hd := weatherSubstance_delta ph demoWaves t 900 scenarioSubstance scenarioData
  have hmc := weatherSubstance_mc ph demoWaves t 900 scenarioSubstance scenarioData
  have hm := weatherSubstance_mass_of ph demoWaves t 900 scenarioSubstance scenarioData
    (by norm_num [scenarioData, List.sum_cons, List.sum_nil])
  have hwe : (weather_elements true ph demoWaves t 900 scenarioSC).1
      = { numReleased := 1
          substances := [(scenarioSubstance,
            (weatherSubstance ph demoWaves t 900 scenarioSubstance scenarioData).1)]
          massBalanceDissolution :=
            0 + ((weatherSubstance ph demoWaves t 900 scenarioSubstance
              scenarioData).2.1 + 0) } := rfl
  refine ⟨?_, ?_, ?_⟩
  · rw [hwe]
    dsimp only
    rw [hd]
    norm_num
  · rw [hwe]
    simp only [List.map_cons, List.map_nil]
    rw [hmc]
    rfl
  · rw [hwe]
    simp only [List.map_cons, List.map_nil]
    rw [hm]
    rfl

/-- The five-row store of the release-count scenario: three rows still
hold the sentinel-zero partition coefficient, two already hold computed
values. -/
def c3Data : ElementData :=
  { massComponents := [[10, 10], [10, 10], [10, 10], [10, 10], [10, 10]]
    mass := [20, 20, 20, 20, 20]
    partitionCoeff := [some 0, some 0, some 0, some (3 / 2), some (5 / 2)]
    dropletAvgSize := [1 / 20000, 1 / 20000, 1 / 20000, 1 / 20000, 1 / 20000]
    spillNum := [0, 0, 0, 1, 1] }

def c3SC : SpillContainer :=
  { numReleased := 5
    substances := [(scenarioSubstance, c3Data)]
    massBalanceDissolution := 0 }

/-- C3: the store holds 5 rows of which only 3 carry the sentinel-zero
partition coefficient, yet `initialize_data` claiming 5 newly released
elements passes the assertion (because line 105 adds `len(mask)` — the
total row count — instead of the number of sentinel rows), and claiming
3 (the correct sentinel count) fails it: the opposite of the claimed
behaviour.  This theorem records the divergence of the code from its
own stated intent. -/
theorem c3_release_count_assertion :
    sentinelZeroCount c3Data.partitionCoeff = 3 ∧
    (init_data true c3SC 5).isSome = true ∧
    init_data true c3SC 3 = none := by
  refine ⟨?_, ?_, ?_⟩
  · norm_num [c3Data, sentinelZeroCount, sentinelZero, List.countP_cons, List.countP_nil]
  · rfl
  · rfl

end PyGnomeDissolution
